import Mathlib

/-!
Verification development for the `wildcard-domain-finder-plus` repository.

The program (src/app.js) is a Node CLI that expands wildcard domain patterns,
combines them with a TLD set, probes each candidate over DNS under a
concurrency ceiling with interactive pause/resume/quit controls, and caches
checked candidates in an append-only JSONL file.

This file shallowly embeds the relevant parts of `src/app.js`:
  * the pattern expander and candidate stream (`expandWildcardPattern`,
    `expandPatternWithTlds`),
  * domain validation (`isValidDomain`, translating `DOMAIN_REGEX`),
  * filter parsing and evaluation (`parseFilterRule`, `buildFilters`,
    `passesFilters`),
  * the DNS probe wrapper (`checkDomain`), with the race against the timeout
    timer abstracted into a `ProbeEvent` describing which promise settles
    first and how,
  * the scheduling loop (`scheduleNext`, the body of the `while (true)` loop
    in `run`, and the probe-completion continuation) as a labelled transition
    system over `SchedState`,
  * CLI parsing and startup (`parseArgs`, the configuration checks at the top
    of `run`).

JavaScript numbers that the program treats as integers are modelled as `Int`
(CLI-supplied values can be negative); counters that start at 0 and are only
incremented/decremented by the program are modelled as `Nat`.
-/

/-! ### Pattern expansion (app.js lines 19, 292-322) -/

/-- The fixed 36-character alphabet `a-z0-9` (app.js line 19). -/
def CHARSET : List Char := "abcdefghijklmnopqrstuvwxyz0123456789".toList

/-- The inner generator `helper(index, prefix)` of `expandWildcardPattern`
(app.js lines 294-307): the pattern suffix still to process plays the role of
`index`, and `acc` is the accumulated prefix.  A `*` ranges over `CHARSET`
in order; any other character is copied. -/
def expandHelper (pattern : List Char) (acc : List Char) : List (List Char) :=
  match pattern with
  | [] => [acc]
  | ch :: rest =>
    if ch = '*' then CHARSET.flatMap (fun c => expandHelper rest (acc ++ [c]))
    else expandHelper rest (acc ++ [ch])

/-- `expandWildcardPattern` (app.js lines 292-309): the full lazy sequence of
expansions of `pattern`, materialised as a list in generation order. -/
def expandWildcardPattern (pattern : List Char) : List (List Char) :=
  expandHelper pattern []

/-- Number of wildcard positions in a pattern. -/
def starCount : List Char → Nat
  | [] => 0
  | c :: rest => if c = '*' then starCount rest + 1 else starCount rest

/-- All length-`k` tuples over `CHARSET` in odometer order: the first
(leftmost) coordinate varies slowest.  Used to state what order
`expandWildcardPattern` produces. -/
def odometerTuples : Nat → List (List Char)
  | 0 => [[]]
  | k + 1 => CHARSET.flatMap (fun c => (odometerTuples k).map (fun t => c :: t))

/-- Substitute the characters of `t` for the successive `*` positions of the
pattern (left to right).  Off-length tuples are consumed best-effort; the
theorems only apply it to tuples of length `starCount pattern`. -/
def substPattern : List Char → List Char → List Char
  | [], _ => []
  | ch :: rest, t =>
    if ch = '*' then
      match t with
      | c :: t2 => c :: substPattern rest t2
      | [] => substPattern rest []
    else ch :: substPattern rest t

/-- JS `s.endsWith(suffix)`. -/
def jsEndsWith (s suffix : String) : Bool :=
  suffix.data.isSuffixOf s.data

/-- JS `s.slice(0, -2)`: drop the last two characters (for `|s| ≥ 2`).
Note that on a pattern ending in `".*"` this removes the dot as well as the
star, although the comment at app.js line 313 says "keep trailing dot". -/
def jsSliceDropTwo (s : String) : String :=
  String.mk (s.data.take (s.data.length - 2))

/-- `expandPatternWithTlds` (app.js lines 311-322): if the pattern ends in
`".*"`, expand the sliced core and pair every expansion with every TLD
(TLD varying fastest); otherwise yield the expansions of the whole pattern
verbatim and ignore the TLD set. -/
def expandPatternWithTlds (pattern : String) (tlds : List String) : List String :=
  if jsEndsWith pattern ".*" then
    let core := jsSliceDropTwo pattern
    (expandWildcardPattern core.data).flatMap
      (fun base => tlds.map (fun tld => String.mk base ++ tld))
  else
    (expandWildcardPattern pattern.data).map String.mk

/-! ### Domain validation (app.js lines 40-47)

`DOMAIN_REGEX = /^(?=.{1,253}$)(?!.*\.\.)([A-Za-z0-9](?:[A-Za-z0-9-]{0,61}[A-Za-z0-9])?\.)+[A-Za-z]{2,63}$/`

For newline-free strings (the only ones this program produces or is given)
the regex says: total length 1-253, at least two dot-separated labels, every
label before the last nonempty, at most 63 characters, alphanumeric at both
ends and alphanumeric-or-hyphen inside, and the final label purely alphabetic
of length 2-63.  The two lookaheads are the length bound and a redundant
"no empty label" guard already implied by the group structure. -/

/-- `[A-Za-z0-9]` (ASCII). -/
def isAlnumChar (c : Char) : Bool :=
  c.isUpper || c.isLower || c.isDigit

/-- JS `String.prototype.split` on a single-character separator: always
returns at least one (possibly empty) piece. -/
def jsSplit (sep : Char) : List Char → List (List Char)
  | [] => [[]]
  | c :: rest =>
    let r := jsSplit sep rest
    if c = sep then [] :: r
    else
      match r with
      | h :: t => (c :: h) :: t
      | [] => [[c]]

/-- One non-final label: `[A-Za-z0-9](?:[A-Za-z0-9-]{0,61}[A-Za-z0-9])?`. -/
def validLabel (l : List Char) : Bool :=
  !l.isEmpty && l.length ≤ 63 && isAlnumChar (l.headD ' ') &&
    isAlnumChar (l.getLastD ' ') && l.all (fun c => isAlnumChar c || c = '-')

/-- The final label: `[A-Za-z]{2,63}`. -/
def validTld (l : List Char) : Bool :=
  2 ≤ l.length && l.length ≤ 63 && l.all Char.isAlpha

/-- `isValidDomain` (app.js lines 45-47), the translation of `DOMAIN_REGEX`
described above. -/
def isValidDomain (domain : String) : Bool :=
  let cs := domain.data
  let parts := jsSplit '.' cs
  1 ≤ cs.length && cs.length ≤ 253 && 2 ≤ parts.length &&
    parts.dropLast.all validLabel && validTld (parts.getLastD [])

/-! ### Filters (app.js lines 192-255) -/

/-- Lowercase a string character-wise (JS `toLowerCase`, ASCII fragment). -/
def jsToLower (l : List Char) : List Char :=
  l.map Char.toLower

/-- JS `parts.join('.')`. -/
def joinDots : List (List Char) → List Char
  | [] => []
  | [x] => x
  | x :: xs => x ++ '.' :: joinDots xs

/-- The `[name, tld]` destructuring used by `passesFilters` (app.js lines
233-238) and by the completion callback (app.js lines 499-504):
`tld = parts.pop().toLowerCase()`, `name = parts.join('.').toLowerCase()`. -/
def splitNameTld (domain : String) : String × String :=
  let parts := jsSplit '.' domain.data
  (String.mk (jsToLower (joinDots parts.dropLast)),
   String.mk (jsToLower (parts.getLastD [])))

/-- A parsed filter rule (app.js lines 192-222).  `length<=` / `length>=`
store `none` when `parseInt` produced `NaN`; a NaN bound makes both JS
comparisons false, so such a filter never rejects. -/
inductive FilterRule where
  | tld (list : List String)
  | lengthMax (value : Option Int)
  | lengthMin (value : Option Int)
  | starts (value : String)
  | ends (value : String)
deriving DecidableEq

/-- JS `parseInt(s, 10)`: skip leading whitespace, optional sign, then the
longest digit prefix; `none` models `NaN`. -/
def jsParseInt (s : String) : Option Int :=
  let cs := s.data.dropWhile Char.isWhitespace
  let signed : Bool × List Char :=
    match cs with
    | '-' :: rest => (true, rest)
    | '+' :: rest => (false, rest)
    | rest => (false, rest)
  let digits := signed.2.takeWhile Char.isDigit
  if digits.isEmpty then none
  else
    let n : Nat := digits.foldl (fun acc c => acc * 10 + (c.toNat - '0'.toNat)) 0
    some (if signed.1 then -(n : Int) else (n : Int))

/-- `v.split(',').map(s => s.trim().toLowerCase()).filter(Boolean)`
(app.js lines 106 and 195). -/
def splitCommaList (v : String) : List String :=
  ((jsSplit ',' v.data).map
      (fun piece => String.mk (jsToLower (String.trim (String.mk piece)).data))).filter
    (fun s => s ≠ "")

/-- `parseFilterRule` (app.js lines 192-222); `none` models `return null`. -/
def parseFilterRule (rule : String) : Option FilterRule :=
  if rule.startsWith "tld:" then
    some (FilterRule.tld (splitCommaList (rule.drop 4)))
  else if rule.startsWith "length<=" then
    some (FilterRule.lengthMax (jsParseInt (rule.drop 8)))
  else if rule.startsWith "length>=" then
    some (FilterRule.lengthMin (jsParseInt (rule.drop 8)))
  else if rule.startsWith "starts:" then
    some (FilterRule.starts (String.mk (jsToLower (rule.drop 7).data)))
  else if rule.startsWith "ends:" then
    some (FilterRule.ends (String.mk (jsToLower (rule.drop 5).data)))
  else none

/-- `buildFilters` (app.js lines 224-228): parse each rule and drop the
nulls. -/
def buildFilters (filterStrings : List String) : List FilterRule :=
  filterStrings.filterMap parseFilterRule

/-- One iteration of the `for (const f of filters)` loop in `passesFilters`
(app.js lines 240-252). -/
def filterAccepts (name tld : String) : FilterRule → Bool
  | FilterRule.tld list => list.contains tld
  | FilterRule.lengthMax v =>
    match v with
    | some n => !((name.length : Int) > n)
    | none => true
  | FilterRule.lengthMin v =>
    match v with
    | some n => !((name.length : Int) < n)
    | none => true
  | FilterRule.starts v => name.startsWith v
  | FilterRule.ends v => name.endsWith v

/-- `passesFilters` (app.js lines 230-255).  The early `return true` for an
empty filter list agrees with the fold over no filters. -/
def passesFilters (domain : String) (filters : List FilterRule) : Bool :=
  let nt := splitNameTld domain
  filters.all (filterAccepts nt.1 nt.2)

/-! ### The DNS probe wrapper `checkDomain` (app.js lines 344-364)

`checkDomain` races `dns.resolveAny(domain)` against a timer that rejects
with `Error('TIMEOUT')` after `timeoutMs`.  The external resolver is not part
of this program; a `ProbeEvent` records which of the two promises settles the
race and, for a DNS rejection, the error's `code` and `message` fields
(`code = none` models a JS error without a `code` property). -/

inductive ProbeEvent where
  | resolve
  | dnsError (code : Option String) (message : String)
  | timerFires
deriving DecidableEq

/-- The value `checkDomain` resolves with: `{ domain, available, error }`,
with `available : null | true | false` as `Option Bool` and
`error : null | string` as `Option String`. -/
structure CheckResult where
  domain : String
  available : Option Bool
  error : Option String
deriving DecidableEq

/-- JS `err.code || err.message` (app.js line 362): an absent or empty
(falsy) `code` falls back to the message. -/
def errCodeOrMessage (code : Option String) (message : String) : String :=
  match code with
  | some c => if c = "" then message else c
  | none => message

/-- The `catch (err)` branch of `checkDomain` (app.js lines 355-363). -/
def catchHandler (domain : String) (code : Option String) (message : String) :
    CheckResult :=
  if code = some "ENOTFOUND" || code = some "ENODATA" then
    ⟨domain, some true, none⟩
  else if message = "TIMEOUT" then ⟨domain, none, some "timeout"⟩
  else ⟨domain, none, some (errCodeOrMessage code message)⟩

/-- `checkDomain` (app.js lines 344-364).  Every rejection is caught, so the
function always returns a `CheckResult` (it never throws); the timer's
rejection carries no `code` and the message `"TIMEOUT"`. -/
def checkDomain (domain : String) (timeoutMs : Int) (ev : ProbeEvent) :
    CheckResult :=
  match ev with
  | ProbeEvent.resolve => ⟨domain, some false, none⟩
  | ProbeEvent.dnsError code message => catchHandler domain code message
  | ProbeEvent.timerFires => catchHandler domain none "TIMEOUT"

/-! ### The scheduler (app.js lines 430-553)

The scheduling core of `run` is modelled as a labelled transition system.
One iteration of the `while (true)` loop (lines 534-543) runs synchronously
on the event loop — `scheduleNext` contains no `await` in its candidate-
pulling loop, so neither key presses nor probe completions can interleave
with it — and is the function `tick`.  Between iterations (during
`await sleep(100)`), any number of key-press events (the `keypress` handler,
lines 57-71) and probe completions (the task body, lines 495-528, whose
continuation after `await checkDomain` runs atomically) may fire; these are
the other transitions.  `await Promise.all(tasks)` after the loop breaks on
`quitting` is the `draining` phase, which becomes `done` when no probe is in
flight.

The resume cache is only ever consulted through `cache.has(domain)`
(line 490), so it is modelled by its key set. -/

inductive Phase where
  | looping
  | draining
  | done
deriving DecidableEq

/-- A completed-probe record (app.js lines 506-513).  The wall-clock
`checkedAt` timestamp is outside the embedding and omitted. -/
structure DomainRecord where
  domain : String
  name : String
  tld : String
  available : Option Bool
  error : Option String
deriving DecidableEq

/-- The run configuration consumed by the scheduling core: `opts.concurrency`,
`opts.timeout`, `opts.useCache` and the parsed filters. -/
structure SchedConfig where
  concurrency : Int
  timeoutMs : Int
  useCache : Bool
  filters : List FilterRule
deriving DecidableEq

/-- The mutable state of `run`: the unconsumed suffix of the candidate
iterator, the multiset of in-flight probe domains (`active` is its length),
the two interactive flags, the `checked` and `totalCandidates` counters, the
cache key set, `availableResults`, the emitted progress snapshots
`(checked, availableResults.length)`, and the control phase. -/
structure SchedState where
  stream : List String
  inflight : List String
  paused : Bool
  quitting : Bool
  checked : Nat
  total : Nat
  cache : List String
  results : List DomainRecord
  progress : List (Nat × Nat)
  phase : Phase
deriving DecidableEq

/-- State at the top of `run`: counters zero, nothing in flight, flags clear,
the freshly built candidate iterator and the loaded cache. -/
def initState (stream0 cache0 : List String) : SchedState :=
  ⟨stream0, [], false, false, 0, 0, cache0, [], [], Phase.looping⟩

/-- `cache.set(domain, record)` restricted to the key set (only
`cache.has` is ever read back). -/
def cacheSet (cache : List String) (domain : String) : List String :=
  if cache.contains domain then cache else domain :: cache

/-- The candidate-pulling loop of `scheduleNext` (app.js lines 481-531) as
called from the main loop: at that point `paused` and `quitting` are `false`
and cannot change during the synchronous loop, so the loop runs
`while (active < concurrency)` over the stream.  Returns the remaining
stream and the newly dispatched domains in dispatch order.  A pulled
candidate that fails validation, fails the filters, or (with caching on) is
already cached is skipped without occupying a slot.  (The source checks the
`active < concurrency` guard before pulling; matching on the stream first is
equivalent, as both orders yield `([], [])` on the exhausted stream.) -/
def scheduleNextLoop (cfg : SchedConfig) (cache : List String) :
    List String → Nat → List String × List String
  | [], _ => ([], [])
  | d :: rest, active =>
    if (active : Int) < cfg.concurrency then
      if !isValidDomain d then scheduleNextLoop cfg cache rest active
      else if !passesFilters d cfg.filters then scheduleNextLoop cfg cache rest active
      else if cfg.useCache && cache.contains d then scheduleNextLoop cfg cache rest active
      else
        let r := scheduleNextLoop cfg cache rest (active + 1)
        (r.1, d :: r.2)
    else (d :: rest, [])

/-- `await scheduleNext()` as one state update: every pulled candidate
increments `totalCandidates` (line 485); dispatched ones join the in-flight
multiset. -/
def scheduleNext (cfg : SchedConfig) (s : SchedState) : SchedState :=
  let r := scheduleNextLoop cfg s.cache s.stream s.inflight.length
  { s with
    stream := r.1
    inflight := s.inflight ++ r.2
    total := s.total + (s.stream.length - r.1.length) }

/-- One iteration of the main loop (app.js lines 534-543):
`if (quitting) break;` then `if (!paused) await scheduleNext();` then
`if (active === 0 && iterator.next().done) break;`.  Note that the loop-exit
check calls `iterator.next()` whenever `active === 0`; when the stream is not
exhausted this consumes its next candidate and discards the value (it is not
validated, counted, dispatched, or cached). -/
def tick (cfg : SchedConfig) (s : SchedState) : SchedState :=
  if s.quitting then { s with phase := Phase.draining }
  else
    let s1 := if s.paused then s else scheduleNext cfg s
    if s1.inflight.length = 0 then
      match s1.stream with
      | [] => { s1 with phase := Phase.done }
      | _ :: rest => { s1 with stream := rest }
    else s1

/-- The `p` key handler (app.js lines 59-62). -/
def pressPause (s : SchedState) : SchedState := { s with paused := true }

/-- The `r` key handler (app.js lines 63-66). -/
def pressResume (s : SchedState) : SchedState := { s with paused := false }

/-- The `q` key handler (app.js lines 67-70). -/
def pressQuit (s : SchedState) : SchedState := { s with quitting := true }

/-- The continuation of a dispatched task once `checkDomain` settles
(app.js lines 495-528): increment `checked`, build the record, write it to
the cache when caching is on, and only when `available === true` push it to
`availableResults` and emit a progress snapshot; finally (the `.finally`)
remove the probe from the in-flight multiset. -/
def completeDomain (cfg : SchedConfig) (s : SchedState) (d : String)
    (ev : ProbeEvent) : SchedState :=
  let res := checkDomain d cfg.timeoutMs ev
  let nt := splitNameTld d
  let record : DomainRecord := ⟨d, nt.1, nt.2, res.available, res.error⟩
  let s1 := { s with
    inflight := s.inflight.erase d
    checked := s.checked + 1
    cache := if cfg.useCache then cacheSet s.cache d else s.cache }
  if res.available = some true then
    { s1 with
      results := s1.results ++ [record]
      progress := s1.progress ++ [(s1.checked, s1.results.length + 1)] }
  else s1

/-- The transitions available between suspension points of the event loop.
Key presses and completions can fire at any point before the process ends;
a `tick` needs the main loop to still be running; the `Promise.all` barrier
resolves once nothing is in flight. -/
inductive Step (cfg : SchedConfig) : SchedState → SchedState → Prop
  | doTick (s : SchedState) : s.phase = Phase.looping → Step cfg s (tick cfg s)
  | doPause (s : SchedState) : s.phase ≠ Phase.done → Step cfg s (pressPause s)
  | doResume (s : SchedState) : s.phase ≠ Phase.done → Step cfg s (pressResume s)
  | doQuit (s : SchedState) : s.phase ≠ Phase.done → Step cfg s (pressQuit s)
  | doComplete (s : SchedState) (d : String) (ev : ProbeEvent) :
      s.phase ≠ Phase.done → d ∈ s.inflight → Step cfg s (completeDomain cfg s d ev)
  | doDrain (s : SchedState) :
      s.phase = Phase.draining → s.inflight = [] → Step cfg s { s with phase := Phase.done }

/-- States reachable by some run over candidate stream `stream0` and loaded
cache `cache0`, under an arbitrary interleaving of loop iterations, key
presses, and probe completions. -/
inductive Reachable (cfg : SchedConfig) (stream0 cache0 : List String) :
    SchedState → Prop
  | init : Reachable cfg stream0 cache0 (initState stream0 cache0)
  | next (s s' : SchedState) : Reachable cfg stream0 cache0 s → Step cfg s s' →
      Reachable cfg stream0 cache0 s'

/-! ### CLI parsing and startup (app.js lines 21-38, 76-136, 430-456) -/

/-- `IANA_TLDS` (app.js lines 21-36). -/
def IANA_TLDS : List String := [
  "com","net","org","edu","gov","mil","int",
  "ca","us","uk","de","fr","au","jp","cn","io","ai","co","me","tv","cc",
  "xyz","info","biz","name","pro","tech","dev","app","cloud","store","shop",
  "site","online","space","fun","live","world","today","news","media","social",
  "group","club","team","company","agency","solutions","systems","network",
  "software","digital","finance","capital","partners","ventures","consulting",
  "services","support","help","care","health","clinic","law","legal",
  "design","photo","photos","gallery","art","music","video","games","game",
  "blog","wiki","school","academy","training","university","science",
  "research","energy","solar","green","eco","earth","bio","farm","garden",
  "coffee","pizza","bar","restaurant","kitchen","food","wine","beer",
  "fashion","style","beauty","spa","travel","vacations","holiday","flights",
  "hotel","rentals","cars","auto","car","bike","homes","house","realty",
  "estate","property","land","city","zone","global","africa","asia","europe"]

/-- `PREMIUM_TLDS` (app.js line 38). -/
def PREMIUM_TLDS : List String :=
  ["com","net","org","io","ai","co","dev","app","xyz","tech"]

/-- The `opts` record built by `parseArgs` (app.js lines 78-94).  String
fields that the program may leave as JS `undefined` (by reading past the end
of `argv`) are `Option String`. -/
structure Opts where
  pattern : Option String
  regex : Option String
  tlds : Option (List String)
  allTlds : Bool
  premiumTlds : Bool
  filters : List String
  sort : Option String
  format : Option String
  output : Option String
  concurrency : Int
  timeout : Int
  resume : Bool
  cacheFile : Option String
  useCache : Bool
  maxLength : Int
deriving DecidableEq

/-- The defaults at app.js lines 78-94. -/
def defaultOpts : Opts :=
  ⟨none, none, none, false, false, [], none, some "txt",
   some "available_domains.txt", 10, 5000, false, some "checked_domains.jsonl",
   true, 4⟩

/-- JS `parseInt(v, 10) || dflt` (app.js lines 116, 118, 128): `NaN`
(`none`) and `0` are falsy and are replaced by the default. -/
def parseIntOr (v : Option Int) (dflt : Int) : Int :=
  match v with
  | some n => if n = 0 then dflt else n
  | none => dflt

/-- The argument loop of `parseArgs` (app.js lines 96-133).  A value-taking
flag consumes the next argument (`args[++i]`).  When a value-taking flag is
the last argument, `args[++i]` is `undefined`: for `-t` and `-F` the program
then throws a `TypeError` (`undefined.split` / `undefined.toLowerCase`),
which propagates to the top-level `run().catch` and exits with code 1,
modelled as `.error 1`; `-f` pushes `undefined`, on which `buildFilters`
later throws inside `run` with the same caught-and-exit-1 outcome; the other
flags store `undefined` (`none`) or, for the numeric flags, fall back to the
default since `parseInt(undefined)` is `NaN`.  `-h` prints the help text and
exits with code 0 (`.error 0`).  Unrecognized arguments are ignored. -/
def parseLoop : Opts → List String → Except Int Opts
  | opts, [] => Except.ok opts
  | opts, a :: rest =>
    if a = "-d" ∨ a = "--domain" then
      match rest with
      | v :: rest2 => parseLoop { opts with pattern := some v } rest2
      | [] => parseLoop { opts with pattern := none } []
    else if a = "-r" ∨ a = "--regex" then
      match rest with
      | v :: rest2 => parseLoop { opts with regex := some v } rest2
      | [] => parseLoop { opts with regex := none } []
    else if a = "-t" ∨ a = "--tlds" then
      match rest with
      | v :: rest2 =>
        if v = "all" then parseLoop { opts with allTlds := true } rest2
        else if v = "premium" then parseLoop { opts with premiumTlds := true } rest2
        else parseLoop { opts with tlds := some (splitCommaList v) } rest2
      | [] => Except.error 1
    else if a = "-f" ∨ a = "--filter" then
      match rest with
      | v :: rest2 => parseLoop { opts with filters := opts.filters ++ [v] } rest2
      | [] => Except.error 1
    else if a = "-s" ∨ a = "--sort" then
      match rest with
      | v :: rest2 => parseLoop { opts with sort := some v } rest2
      | [] => parseLoop { opts with sort := none } []
    else if a = "-F" ∨ a = "--format" then
      match rest with
      | v :: rest2 =>
        parseLoop { opts with format := some (String.mk (jsToLower v.data)) } rest2
      | [] => Except.error 1
    else if a = "-o" ∨ a = "--output" then
      match rest with
      | v :: rest2 => parseLoop { opts with output := some v } rest2
      | [] => parseLoop { opts with output := none } []
    else if a = "-c" ∨ a = "--concurrency" then
      match rest with
      | v :: rest2 =>
        parseLoop { opts with concurrency := parseIntOr (jsParseInt v) 10 } rest2
      | [] => parseLoop { opts with concurrency := 10 } []
    else if a = "-T" ∨ a = "--timeout" then
      match rest with
      | v :: rest2 =>
        parseLoop { opts with timeout := parseIntOr (jsParseInt v) 5000 } rest2
      | [] => parseLoop { opts with timeout := 5000 } []
    else if a = "-R" ∨ a = "--resume" then
      parseLoop { opts with resume := true } rest
    else if a = "--no-resume" then
      parseLoop { opts with resume := false } rest
    else if a = "-C" ∨ a = "--cache" then
      match rest with
      | v :: rest2 => parseLoop { opts with cacheFile := some v } rest2
      | [] => parseLoop { opts with cacheFile := none } []
    else if a = "--no-cache" then
      parseLoop { opts with useCache := false } rest
    else if a = "--max-length" then
      match rest with
      | v :: rest2 =>
        parseLoop { opts with maxLength := parseIntOr (jsParseInt v) 4 } rest2
      | [] => parseLoop { opts with maxLength := 4 } []
    else if a = "-h" ∨ a = "--help" then
      Except.error 0
    else parseLoop opts rest

/-- `parseArgs` (app.js lines 76-136). -/
def parseArgs (args : List String) : Except Int Opts :=
  parseLoop defaultOpts args

/-- JS truthiness of an optional string: `undefined` and `""` are falsy. -/
def truthyStr : Option String → Bool
  | some s => s != ""
  | none => false

/-- Everything the rest of `run` reads from the configuration, assembled by
the startup section (app.js lines 430-470) before the scheduling loop
starts. -/
structure RunSetup where
  config : SchedConfig
  tlds : List String
  patternStr : Option String
  regexStr : Option String
  maxLength : Int
  output : Option String
  format : Option String
  sortMode : Option String
  cacheFile : Option String
deriving DecidableEq

/-- The startup checks of `run` (app.js lines 430-456), given a validity
oracle for JS regex syntax (`new RegExp` succeeding): exit 1 when neither a
pattern nor a regex was supplied (falsy check, lines 433-436), and exit 1
when a supplied regex fails to compile (lines 446-454).  TLD selection
follows lines 440-444.  Numeric options are used as parsed — there is no
validation of them here or in `parseArgs`. -/
def buildSetup (regexOk : String → Bool) (o : Opts) : Except Int RunSetup :=
  if !(truthyStr o.pattern || truthyStr o.regex) then Except.error 1
  else if truthyStr o.regex && !regexOk (o.regex.getD "") then Except.error 1
  else Except.ok
    { config := ⟨o.concurrency, o.timeout, o.useCache, buildFilters o.filters⟩
      tlds :=
        if o.allTlds then IANA_TLDS
        else if o.premiumTlds then PREMIUM_TLDS
        else
          match o.tlds with
          | some l => if l.isEmpty then ["com"] else l
          | none => ["com"]
      patternStr := o.pattern
      regexStr := o.regex
      maxLength := o.maxLength
      output := o.output
      format := o.format
      sortMode := o.sort
      cacheFile := o.cacheFile }

/-- CLI parsing followed by the startup checks: everything that happens
before the Scheduler (the scheduling loop and its state) is constructed. -/
def startup (regexOk : String → Bool) (args : List String) :
    Except Int RunSetup :=
  match parseArgs args with
  | Except.error e => Except.error e
  | Except.ok o => buildSetup regexOk o

/-! ### Properties of the pattern expander (claim C2) -/

lemma length_flatMap_map {α β γ : Type} (l : List α) (xs : List β) (g : α → β → γ) :
    (l.flatMap (fun a => xs.map (g a))).length = l.length * xs.length := by
  induction l with
  | nil => simp
  | cons a l ih =>
    simp only [List.flatMap_cons, List.length_append, List.length_map, ih,
      List.length_cons]
    ring

lemma odometerTuples_length (k : Nat) : (odometerTuples k).length = 36 ^ k := by
  induction k with
  | zero => simp [odometerTuples]
  | succ k ih =>
    have h36 : CHARSET.length = 36 := rfl
    rw [odometerTuples, length_flatMap_map CHARSET (odometerTuples k) (fun c t => c :: t),
      h36, ih, pow_succ]
    ring

lemma mem_odometerTuples_length {k : Nat} {t : List Char}
    (h : t ∈ odometerTuples k) : t.length = k := by
  induction k generalizing t with
  | zero =>
    rw [odometerTuples] at h
    simp only [List.mem_singleton] at h
    simp [h]
  | succ k ih =>
    rw [odometerTuples] at h
    simp only [List.mem_flatMap, List.mem_map] at h
    obtain ⟨c, _, t', ht', rfl⟩ := h
    simp [ih ht']

lemma nodup_flatMap_cons (l : List Char) (xs : List (List Char)) (hl : l.Nodup)
    (hxs : xs.Nodup) :
    (l.flatMap (fun c => xs.map (fun t => c :: t))).Nodup := by
  induction l with
  | nil => simp
  | cons c l ih =>
    obtain ⟨hc, hl'⟩ := List.nodup_cons.mp hl
    simp only [List.flatMap_cons]
    rw [List.nodup_append]
    refine ⟨hxs.map_on (fun x _ y _ h => by simpa using h), ih hl', ?_⟩
    intro x hx hx'
    simp only [List.mem_map] at hx
    simp only [List.mem_flatMap, List.mem_map] at hx'
    obtain ⟨t, _, rfl⟩ := hx
    obtain ⟨c', hc', t', _, heq⟩ := hx'
    cases heq
    exact hc hc'

lemma odometerTuples_nodup (k : Nat) : (odometerTuples k).Nodup := by
  induction k with
  | zero => simp [odometerTuples]
  | succ k ih =>
    rw [odometerTuples]
    exact nodup_flatMap_cons CHARSET (odometerTuples k) (by decide) ih

lemma substPattern_inj (p : List Char) :
    ∀ t1 t2, t1.length = starCount p → t2.length = starCount p →
      substPattern p t1 = substPattern p t2 → t1 = t2 := by
  induction p with
  | nil =>
    intro t1 t2 h1 h2 _
    simp only [starCount, List.length_eq_zero] at h1 h2
    rw [h1, h2]
  | cons ch rest ih =>
    intro t1 t2 h1 h2 he
    by_cases hch : ch = '*'
    · subst hch
      simp only [starCount, eq_self_iff_true, if_true] at h1 h2
      match t1, t2 with
      | [], _ => simp at h1
      | _, [] => simp at h2
      | c1 :: t1', c2 :: t2' =>
        simp only [substPattern, eq_self_iff_true, if_true, List.cons.injEq] at he
        simp only [List.length_cons, Nat.succ.injEq] at h1 h2
        obtain ⟨hc12, he2⟩ := he
        subst hc12
        rw [ih t1' t2' h1 h2 he2]
    · simp only [starCount, if_neg hch] at h1 h2
      simp only [substPattern, if_neg hch, List.cons.injEq, true_and] at he
      exact ih t1 t2 h1 h2 he

lemma expandHelper_eq (p : List Char) :
    ∀ acc, expandHelper p acc =
      (odometerTuples (starCount p)).map (fun t => acc ++ substPattern p t) := by
  induction p with
  | nil =>
    intro acc
    simp [expandHelper, starCount, odometerTuples, substPattern]
  | cons ch rest ih =>
    intro acc
    by_cases hch : ch = '*'
    · subst hch
      simp only [expandHelper, eq_self_iff_true, if_true, starCount]
      rw [odometerTuples, List.map_flatMap]
      refine congrArg (List.flatMap CHARSET) (funext fun c => ?_)
      rw [ih (acc ++ [c]), List.map_map]
      refine congrArg (fun f => List.map f (odometerTuples (starCount rest))) ?_
      funext t
      simp [substPattern, List.append_assoc]
    · simp only [expandHelper, if_neg hch, starCount]
      rw [ih (acc ++ [ch])]
      refine congrArg (fun f => List.map f (odometerTuples (starCount rest))) ?_
      funext t
      simp [substPattern, if_neg hch, List.append_assoc]

/-- **C2.** For every wildcard pattern with `k` wildcard positions, the
Pattern Expander `expandWildcardPattern` yields exactly `36 ^ k` base labels
(the alphabet `CHARSET` is the 36 characters `a-z0-9`), pairwise distinct,
and the sequence is exactly the substitutions of the odometer-ordered tuples
(leftmost wildcard varying slowest) into the pattern.  Re-invocation
determinism is immediate: the embedding is a pure function of the pattern,
so the same pattern always yields the identical sequence. -/
theorem C2_expander_odometer (p : List Char) :
    (expandWildcardPattern p).length = 36 ^ starCount p ∧
    (expandWildcardPattern p).Nodup ∧
    expandWildcardPattern p =
      (odometerTuples (starCount p)).map (substPattern p) := by
  have hmain : expandWildcardPattern p =
      (odometerTuples (starCount p)).map (substPattern p) := by
    rw [expandWildcardPattern, expandHelper_eq p []]
    simp
  refine ⟨?_, ?_, hmain⟩
  · rw [hmain, List.length_map, odometerTuples_length]
  · rw [hmain]
    exact (odometerTuples_nodup (starCount p)).map_on
      (fun x hx y hy hxy =>
        substPattern_inj p x y (mem_odometerTuples_length hx)
          (mem_odometerTuples_length hy) hxy)

/-! ### Scheduler invariants -/

lemma length_erase_le (d : String) (l : List String) :
    (l.erase d).length ≤ l.length := by
  rw [List.length_erase]
  split <;> omega

lemma completeDomain_stream (cfg : SchedConfig) (s : SchedState) (d : String)
    (ev : ProbeEvent) : (completeDomain cfg s d ev).stream = s.stream := by
  simp only [completeDomain]
  split <;> rfl

lemma completeDomain_quitting (cfg : SchedConfig) (s : SchedState) (d : String)
    (ev : ProbeEvent) : (completeDomain cfg s d ev).quitting = s.quitting := by
  simp only [completeDomain]
  split <;> rfl

lemma completeDomain_paused (cfg : SchedConfig) (s : SchedState) (d : String)
    (ev : ProbeEvent) : (completeDomain cfg s d ev).paused = s.paused := by
  simp only [completeDomain]
  split <;> rfl

lemma completeDomain_phase (cfg : SchedConfig) (s : SchedState) (d : String)
    (ev : ProbeEvent) : (completeDomain cfg s d ev).phase = s.phase := by
  simp only [completeDomain]
  split <;> rfl

lemma completeDomain_inflight (cfg : SchedConfig) (s : SchedState) (d : String)
    (ev : ProbeEvent) : (completeDomain cfg s d ev).inflight = s.inflight.erase d := by
  simp only [completeDomain]
  split <;> rfl

lemma completeDomain_checked (cfg : SchedConfig) (s : SchedState) (d : String)
    (ev : ProbeEvent) : (completeDomain cfg s d ev).checked = s.checked + 1 := by
  simp only [completeDomain]
  split <;> rfl

lemma scheduleNextLoop_active_bound (cfg : SchedConfig) (cache : List String) :
    ∀ (stream : List String) (active : Nat), active ≤ cfg.concurrency.toNat →
      active + (scheduleNextLoop cfg cache stream active).2.length ≤
        cfg.concurrency.toNat := by
  intro stream
  induction stream with
  | nil =>
    intro active h
    simpa [scheduleNextLoop] using h
  | cons d rest ih =>
    intro active h
    rw [scheduleNextLoop]
    by_cases hg : (active : Int) < cfg.concurrency
    · rw [if_pos hg]
      have hlt : active + 1 ≤ cfg.concurrency.toNat := by omega
      split
      · exact ih active h
      · split
        · exact ih active h
        · split
          · exact ih active h
          · have := ih (active + 1) hlt
            simp only [List.length_cons]
            omega
    · rw [if_neg hg]
      simpa using h

lemma scheduleNext_inflight_bound (cfg : SchedConfig) (s : SchedState)
    (h : s.inflight.length ≤ cfg.concurrency.toNat) :
    (scheduleNext cfg s).inflight.length ≤ cfg.concurrency.toNat := by
  simp only [scheduleNext, List.length_append]
  exact scheduleNextLoop_active_bound cfg s.cache s.stream s.inflight.length h

lemma tick_inflight (cfg : SchedConfig) (s : SchedState) :
    (tick cfg s).inflight = s.inflight ∨
    (tick cfg s).inflight = (scheduleNext cfg s).inflight := by
  unfold tick
  split
  · exact Or.inl rfl
  · by_cases hp : s.paused = true
    · simp only [if_pos hp]
      split
      · split
        · exact Or.inl rfl
        · exact Or.inl rfl
      · exact Or.inl rfl
    · simp only [if_neg hp]
      split
      · split
        · exact Or.inr rfl
        · exact Or.inr rfl
      · exact Or.inr rfl

/-- **C3.** In every state reachable under any interleaving of scheduling
cycles, pause/resume/quit key presses, and probe completions, the number of
in-flight probes never exceeds the configured concurrency ceiling: it is
bounded by `concurrency.toNat` unconditionally, hence by `concurrency`
itself whenever the configured ceiling is non-negative (the spec requires a
positive integer). -/
theorem C3_inflight_bounded (cfg : SchedConfig) (stream0 cache0 : List String)
    (s : SchedState) (h : Reachable cfg stream0 cache0 s) :
    s.inflight.length ≤ cfg.concurrency.toNat ∧
    (0 ≤ cfg.concurrency → (s.inflight.length : Int) ≤ cfg.concurrency) := by
  have main : s.inflight.length ≤ cfg.concurrency.toNat := by
    induction h with
    | init => simp [initState]
    | next s s' hr hstep ih =>
      cases hstep with
      | doTick hp =>
        rcases tick_inflight cfg s with he | he
        · rw [he]; exact ih
        · rw [he]; exact scheduleNext_inflight_bound cfg s ih
      | doPause hp => exact ih
      | doResume hp => exact ih
      | doQuit hp => exact ih
      | doComplete d ev hp hd =>
        rw [completeDomain_inflight]
        exact le_trans (length_erase_le d s.inflight) ih
      | doDrain hp hd => exact ih
  exact ⟨main, fun hpos => by omega⟩

/-- Witness for C3 at a concrete configuration and reachable state (one
scheduling cycle from the initial state with concurrency 2). -/
theorem C3_witness :
    (tick ⟨2, 5000, true, []⟩ (initState ["ab.com", "cd.com", "ef.com"] [])).inflight.length ≤
      (2 : Int).toNat ∧
    (0 ≤ (2 : Int) →
      ((tick ⟨2, 5000, true, []⟩ (initState ["ab.com", "cd.com", "ef.com"] [])).inflight.length : Int) ≤ 2) :=
  C3_inflight_bounded ⟨2, 5000, true, []⟩ ["ab.com", "cd.com", "ef.com"] []
    (tick ⟨2, 5000, true, []⟩ (initState ["ab.com", "cd.com", "ef.com"] []))
    (Reachable.next _ _ Reachable.init (Step.doTick _ rfl))

/-- **C5.** Once a quit signal has been observed (`quitting = true`), every
subsequent transition keeps `quitting` set, leaves the candidate stream
untouched (no further pull), and never increases the in-flight count (no new
dispatch); in-flight probes may still complete one by one (they are awaited,
not cancelled), `DONE` is only ever entered with zero probes in flight, and
from the `DRAINING` phase with zero probes in flight the `DONE` transition
(the resolution of `Promise.all(tasks)`) is enabled — regardless of whether
the candidate stream is exhausted. -/
theorem C5_quit_drains (cfg : SchedConfig) (s s' : SchedState)
    (h : Step cfg s s') (hq : s.quitting = true) :
    s'.quitting = true ∧ s'.stream = s.stream ∧
    s'.inflight.length ≤ s.inflight.length ∧
    (s'.phase = Phase.done → s.inflight = []) ∧
    (s.phase = Phase.draining → s.inflight = [] →
      Step cfg s { s with phase := Phase.done }) ∧
    (∀ d ev, s.phase ≠ Phase.done → d ∈ s.inflight →
      Step cfg s (completeDomain cfg s d ev)) := by
  refine ⟨?_, ?_, ?_, ?_, fun h1 h2 => Step.doDrain s h1 h2,
    fun d ev h1 h2 => Step.doComplete s d ev h1 h2⟩ <;>
    cases h with
  | doTick hp =>
    have ht : tick cfg s = { s with phase := Phase.draining } := by
      unfold tick
      rw [if_pos hq]
    first
      | (rw [ht]; exact hq)
      | (rw [ht]; done)
      | (rw [ht]; exact le_refl _)
      | (rw [ht]; exact fun hd => by simp at hd)
  | doPause hp =>
    first
      | exact hq
      | rfl
      | exact le_refl _
      | exact fun hd => absurd hd hp
  | doResume hp =>
    first
      | exact hq
      | rfl
      | exact le_refl _
      | exact fun hd => absurd hd hp
  | doQuit hp =>
    first
      | rfl
      | exact le_refl _
      | exact fun hd => absurd hd hp
  | doComplete d ev hp hd =>
    first
      | exact (completeDomain_quitting cfg s d ev).trans hq
      | exact completeDomain_stream cfg s d ev
      | exact (completeDomain_inflight cfg s d ev) ▸ length_erase_le d s.inflight
      | exact fun hdone => absurd ((completeDomain_phase cfg s d ev) ▸ hdone) hp
  | doDrain hp hd =>
    first
      | exact hq
      | rfl
      | exact le_refl _
      | exact fun _ => hd

/-- Witness for C5: quit is pressed while one probe is in flight and a
candidate remains in the stream; the next loop iteration moves to draining
without pulling that candidate or dispatching anything. -/
theorem C5_witness :
    (tick ⟨1, 5000, true, []⟩ (pressQuit (tick ⟨1, 5000, true, []⟩
        (initState ["aa.com", "bb.com"] [])))).quitting = true ∧
    (tick ⟨1, 5000, true, []⟩ (pressQuit (tick ⟨1, 5000, true, []⟩
        (initState ["aa.com", "bb.com"] [])))).stream =
      (pressQuit (tick ⟨1, 5000, true, []⟩
        (initState ["aa.com", "bb.com"] []))).stream ∧
    (tick ⟨1, 5000, true, []⟩ (pressQuit (tick ⟨1, 5000, true, []⟩
        (initState ["aa.com", "bb.com"] [])))).inflight.length ≤
      (pressQuit (tick ⟨1, 5000, true, []⟩
        (initState ["aa.com", "bb.com"] []))).inflight.length := by
  have h := C5_quit_drains ⟨1, 5000, true, []⟩
    (pressQuit (tick ⟨1, 5000, true, []⟩ (initState ["aa.com", "bb.com"] []))) _
    (Step.doTick _ (by decide)) rfl
  exact ⟨h.1, h.2.1, h.2.2.1⟩

/-! ### A concrete run exhibiting the paused-loop candidate drop

Configuration: concurrency 1, caching on, no filters; candidate stream
`["aa.com", "bb.com"]`; the cache starts empty.  The run: the first loop
iteration dispatches `aa.com`; the user presses `p`; the probe for `aa.com`
completes (resolving, i.e. the domain is taken); the next loop iteration,
taken while paused with zero probes in flight, evaluates
`iterator.next()` in the loop-exit check and thereby consumes `bb.com`
without dispatching, counting, or caching it; the user presses `r`; the
following iteration finds the stream exhausted and finishes the run. -/

def exCfg : SchedConfig := ⟨1, 5000, true, []⟩

def exStream : List String := ["aa.com", "bb.com"]

/-- After the first loop iteration: `aa.com` in flight, `bb.com` pending. -/
def exS1 : SchedState := tick exCfg (initState exStream [])

/-- After `p` is pressed and the probe for `aa.com` completes (taken). -/
def exS3 : SchedState :=
  completeDomain exCfg (pressPause exS1) "aa.com" ProbeEvent.resolve

/-- After the next loop iteration, still paused: `bb.com` has been consumed
by the loop-exit check and dropped. -/
def exS4 : SchedState := tick exCfg exS3

/-- After `r` is pressed and one more loop iteration: the run is `DONE`. -/
def exS6 : SchedState := tick exCfg (pressResume exS4)

/-- The first loop iteration of a second run over the same stream, loading
the cache left behind by the completed first run. -/
def exRun2 : SchedState := tick exCfg (initState exStream exS6.cache)

lemma exS3_reachable : Reachable exCfg exStream [] exS3 :=
  Reachable.next _ _
    (Reachable.next _ _
      (Reachable.next _ _ Reachable.init (Step.doTick _ rfl))
      (Step.doPause _ (by decide)))
    (Step.doComplete _ _ _ (by decide) (by decide))

lemma exS6_reachable : Reachable exCfg exStream [] exS6 :=
  Reachable.next _ _
    (Reachable.next _ _
      (Reachable.next _ _ exS3_reachable (Step.doTick _ (by decide)))
      (Step.doResume _ (by decide)))
    (Step.doTick _ (by decide))

/-- **C1** (code bug): in pattern mode with the TLD-pairing pattern
`"go.*"` and TLD set `["com", "net"]`, the Candidate Stream yields
`"gocom"` and `"gonet"` — base label and TLD concatenated WITHOUT the
separating dot — because `pattern.slice(0, -2)` at app.js line 313 removes
the trailing dot despite the adjacent comment "keep trailing dot".  The
claimed candidate `label + "." + tld` (here `"go.com"`) is never yielded,
and the dotless strings that are yielded fail domain validation, so they
are silently dropped by the scheduler. -/
theorem C1_missing_dot_bug :
    expandPatternWithTlds "go.*" ["com", "net"] = ["gocom", "gonet"] ∧
    isValidDomain "gocom" = false ∧ isValidDomain "gonet" = false ∧
    (expandPatternWithTlds "go.*" ["com", "net"]).contains "go.com" = false ∧
    isValidDomain "go.com" = true := by
  exact ⟨by decide, by decide, by decide, by decide, by decide⟩

/-- **C4** (code bug): a candidate is consumed from the stream while the
Scheduler is PAUSED.  In the reachable state `exS3` the run is paused with
zero probes in flight and `bb.com` still in the stream; the next loop
iteration removes `bb.com` from the stream while dispatching nothing — the
candidate is discarded: not probed, not counted, not cached, not reported.
The subsequent resume and iteration end the run with `bb.com` never
checked. -/
theorem C4_paused_pull_bug :
    Reachable exCfg exStream [] exS3 ∧
    exS3.phase = Phase.looping ∧ exS3.paused = true ∧ exS3.inflight = [] ∧
    exS3.stream = ["bb.com"] ∧
    tick exCfg exS3 = exS4 ∧
    exS4.stream = [] ∧ exS4.inflight = [] ∧
    exS4.checked = exS3.checked ∧ exS4.total = exS3.total ∧
    exS4.cache = exS3.cache ∧ exS4.results = exS3.results ∧
    exS6.phase = Phase.done ∧ exS6.checked = 1 ∧
    exS6.cache.contains "bb.com" = false :=
  ⟨exS3_reachable, by decide, by decide, by decide, by decide, rfl, by decide,
   by decide, by decide, by decide, by decide, by decide, by decide, by decide,
   by decide⟩

/-- **C6** (code bug): idempotent restart fails.  The first run (with
caching enabled, no quit signal) completes — it reaches `DONE` with the
stream exhausted — but because `bb.com` was silently consumed by the
loop-exit check while paused, it was never probed and never cached.  A
second run over the same pattern/TLD configuration, loading the cache the
first run produced, therefore dispatches a probe for `bb.com` on its very
first scheduling cycle instead of dispatching zero probes. -/
theorem C6_restart_not_idempotent :
    Reachable exCfg exStream [] exS6 ∧
    exS6.phase = Phase.done ∧ exS6.quitting = false ∧ exS6.stream = [] ∧
    exCfg.useCache = true ∧ exS6.cache = ["aa.com"] ∧
    Step exCfg (initState exStream exS6.cache) exRun2 ∧
    exRun2.inflight = ["bb.com"] ∧
    exRun2.inflight.length = 1 :=
  ⟨exS6_reachable, by decide, by decide, by decide, by decide, by decide,
   Step.doTick _ rfl, by decide, by decide⟩

/-- **C7.** The probe wrapper is total (every rejection is caught; the
returned record always carries the probed domain) and classifies outcomes
as the spec says: successful resolution before the timer ⇒
`available = false`; a probe failure with `ENOTFOUND` or `ENODATA` ⇒
`available = true`; the timeout timer firing first ⇒ `available = unknown`
with error `"timeout"`; any other probe error ⇒ `available = unknown`
carrying the underlying reason (`err.code || err.message`).  The last case
assumes the external error's message is not the timer's sentinel string
`"TIMEOUT"`, which the code cannot distinguish from its own timer. -/
theorem C7_checkDomain_outcomes (domain : String) (timeoutMs : Int)
    (ev : ProbeEvent) :
    (checkDomain domain timeoutMs ev).domain = domain ∧
    (ev = ProbeEvent.resolve →
      checkDomain domain timeoutMs ev = ⟨domain, some false, none⟩) ∧
    (ev = ProbeEvent.timerFires →
      checkDomain domain timeoutMs ev = ⟨domain, none, some "timeout"⟩) ∧
    (∀ c m, ev = ProbeEvent.dnsError (some c) m →
      (c = "ENOTFOUND" ∨ c = "ENODATA") →
      checkDomain domain timeoutMs ev = ⟨domain, some true, none⟩) ∧
    (∀ oc m, ev = ProbeEvent.dnsError oc m →
      oc ≠ some "ENOTFOUND" → oc ≠ some "ENODATA" → m ≠ "TIMEOUT" →
      checkDomain domain timeoutMs ev =
        ⟨domain, none, some (errCodeOrMessage oc m)⟩) := by
  refine ⟨?_, ?_, ?_, ?_, ?_⟩
  · cases ev with
    | resolve => rfl
    | dnsError code message =>
      show (catchHandler domain code message).domain = domain
      unfold catchHandler
      split
      · rfl
      · split <;> rfl
    | timerFires => rfl
  · intro h
    subst h
    rfl
  · intro h
    subst h
    rfl
  · intro c m h hc
    subst h
    rcases hc with rfl | rfl <;> rfl
  · intro oc m h h1 h2 h3
    subst h
    show catchHandler domain oc m = _
    unfold catchHandler
    rw [if_neg, if_neg h3]
    simp only [h1, h2]
    simp [h1, h2]

/-- Witness for C7 at concrete probe events: the timer firing, a
not-found rejection, and a transport error carrying its code. -/
theorem C7_witness :
    checkDomain "go.com" 5000 ProbeEvent.timerFires =
      ⟨"go.com", none, some "timeout"⟩ ∧
    checkDomain "go.com" 5000 (ProbeEvent.dnsError (some "ENOTFOUND") "nf") =
      ⟨"go.com", some true, none⟩ ∧
    checkDomain "go.com" 5000 (ProbeEvent.dnsError (some "EAI_AGAIN") "try again") =
      ⟨"go.com", none, some "EAI_AGAIN"⟩ :=
  ⟨(C7_checkDomain_outcomes "go.com" 5000 ProbeEvent.timerFires).2.2.1 rfl,
   (C7_checkDomain_outcomes "go.com" 5000
      (ProbeEvent.dnsError (some "ENOTFOUND") "nf")).2.2.2.1 "ENOTFOUND" "nf"
      rfl (Or.inl rfl),
   ((C7_checkDomain_outcomes "go.com" 5000
      (ProbeEvent.dnsError (some "EAI_AGAIN") "try again")).2.2.2.2
      (some "EAI_AGAIN") "try again" rfl (by decide) (by decide)
      (by decide)).trans (by decide)⟩

/-- **C9** (amended): a progress snapshot `(checked, availableResults.length)`
is emitted on exactly those probe completions whose outcome is
`available = true`; completions with a taken or unknown outcome increment
`checked` but emit nothing (the write at app.js lines 522-524 sits inside
`if (res.available === true)`). -/
theorem C9_progress_only_on_available (cfg : SchedConfig) (s : SchedState)
    (d : String) (ev : ProbeEvent) :
    (completeDomain cfg s d ev).checked = s.checked + 1 ∧
    ((checkDomain d cfg.timeoutMs ev).available = some true →
      (completeDomain cfg s d ev).progress =
        s.progress ++ [(s.checked + 1, s.results.length + 1)]) ∧
    ((checkDomain d cfg.timeoutMs ev).available ≠ some true →
      (completeDomain cfg s d ev).progress = s.progress) := by
  refine ⟨completeDomain_checked cfg s d ev, ?_, ?_⟩
  · intro h
    simp only [completeDomain]
    rw [if_pos h]
  · intro h
    simp only [completeDomain]
    rw [if_neg h]

/-- Witness for C9: an `available = true` completion emits the snapshot
`(1, 1)` from the initial state; the hypothesis side is discharged at the
concrete probe event. -/
theorem C9_witness :
    (completeDomain exCfg (initState [] []) "aa.com"
        (ProbeEvent.dnsError (some "ENOTFOUND") "nf")).progress = [(1, 1)] ∧
    (completeDomain exCfg (initState [] []) "aa.com"
        (ProbeEvent.dnsError (some "ENOTFOUND") "nf")).checked = 1 :=
  ⟨((C9_progress_only_on_available exCfg (initState [] []) "aa.com"
      (ProbeEvent.dnsError (some "ENOTFOUND") "nf")).2.1 (by decide)).trans rfl,
   (C9_progress_only_on_available exCfg (initState [] []) "aa.com"
      (ProbeEvent.dnsError (some "ENOTFOUND") "nf")).1⟩

/-- **C9** (counterexample to the claim as stated): in the reachable state
`exS3` a probe completion has just occurred (`checked` went from 0 to 1)
whose outcome was `available = false` (the domain resolved, i.e. taken),
and no progress snapshot was emitted: the progress stream is empty. -/
theorem C9_counterexample :
    Reachable exCfg exStream [] exS3 ∧
    exS3.checked = 1 ∧ exS3.results = [] ∧ exS3.progress = [] ∧
    (checkDomain "aa.com" exCfg.timeoutMs ProbeEvent.resolve).available =
      some false :=
  ⟨exS3_reachable, by decide, by decide, by decide, by decide⟩

/-! ### Configuration errors at startup (claim C8) -/

lemma parseIntOr_default (v : Option Int) (dflt : Int) (h : v.getD 0 = 0) :
    parseIntOr v dflt = dflt := by
  cases v with
  | none => rfl
  | some n =>
    simp only [Option.getD_some] at h
    simp [parseIntOr, h]

/-- **C8** (counterexample to the claim as stated): unparseable numeric
flags are NOT fatal.  With `-c xx -T yy --max-length zz` (none of which
parse as integers) the startup phase succeeds and the run continues with
the silently substituted defaults: concurrency 10, timeout 5000 ms,
max-length 4. -/
theorem C8_counterexample :
    (startup (fun _ => true)
        ["-d", "go*", "-c", "xx", "-T", "yy", "--max-length", "zz"]).map
      (fun st => (st.config.concurrency, st.config.timeoutMs, st.maxLength)) =
    Except.ok (10, 5000, 4) := rfl

/-- **C8** (amended): an invalid regex is fatal at startup — reported and
the process exits nonzero before the Scheduler is constructed — but an
unparseable (or zero) numeric flag is not a startup error at all: the
`parseInt(...) || default` fallback silently substitutes the default value
(concurrency 10, timeout 5000, max-length 4) and parsing continues. -/
theorem C8_invalid_regex_fatal_numeric_fallback (rv : String → Bool)
    (args : List String) (o : Opts) (r : String)
    (h1 : parseArgs args = Except.ok o) (h2 : o.regex = some r)
    (h3 : r ≠ "") (h4 : rv r = false) :
    startup rv args = Except.error 1 ∧
    (∀ (o2 : Opts) (v : String) (rest : List String), (jsParseInt v).getD 0 = 0 →
      parseLoop o2 ("-c" :: v :: rest) =
        parseLoop { o2 with concurrency := 10 } rest ∧
      parseLoop o2 ("-T" :: v :: rest) =
        parseLoop { o2 with timeout := 5000 } rest ∧
      parseLoop o2 ("--max-length" :: v :: rest) =
        parseLoop { o2 with maxLength := 4 } rest) := by
  constructor
  · unfold startup
    rw [h1]
    show buildSetup rv o = Except.error 1
    have htr : truthyStr o.regex = true := by
      rw [h2]
      simpa [truthyStr] using h3
    unfold buildSetup
    rw [htr]
    simp [h2, h4]
  · intro o2 v rest h0
    refine ⟨?_, ?_, ?_⟩
    · have step : parseLoop o2 ("-c" :: v :: rest) =
          parseLoop { o2 with concurrency := parseIntOr (jsParseInt v) 10 } rest := rfl
      rw [step, parseIntOr_default _ _ h0]
    · have step : parseLoop o2 ("-T" :: v :: rest) =
          parseLoop { o2 with timeout := parseIntOr (jsParseInt v) 5000 } rest := rfl
      rw [step, parseIntOr_default _ _ h0]
    · have step : parseLoop o2 ("--max-length" :: v :: rest) =
          parseLoop { o2 with maxLength := parseIntOr (jsParseInt v) 4 } rest := rfl
      rw [step, parseIntOr_default _ _ h0]

/-- Witness for C8: a concrete failing regex (`rv` rejects `"ab"`) exits
with code 1, and the concrete unparseable value `"zz"` for `-c` falls back
to concurrency 10. -/
theorem C8_witness :
    startup (fun _ => false) ["-r", "ab"] = Except.error 1 ∧
    parseLoop defaultOpts ["-c", "zz"] =
      parseLoop { defaultOpts with concurrency := 10 } [] := by
  have h := C8_invalid_regex_fatal_numeric_fallback (fun _ => false) ["-r", "ab"]
    { defaultOpts with regex := some "ab" } "ab" rfl rfl (by decide) rfl
  exact ⟨h.1, (h.2 defaultOpts "zz" [] (by decide)).1⟩

/-! ### The dead resume flag (claim C10) -/

/-- Forget the `resume` field (set it to its default).  Two `Opts` values
with the same image under `eraseResume` differ at most in `resume`. -/
def eraseResume (o : Opts) : Opts := { o with resume := false }

lemma parseLoop_tlds_select (o : Opts) (v : String) (rest2 : List String)
    (h1 : ¬v = "all") (h2 : ¬v = "premium") :
    parseLoop o ("-t" :: v :: rest2) =
      parseLoop { o with tlds := some (splitCommaList v) } rest2 := by
  show (if v = "all" then parseLoop { o with allTlds := true } rest2
      else if v = "premium" then parseLoop { o with premiumTlds := true } rest2
      else parseLoop { o with tlds := some (splitCommaList v) } rest2) =
    parseLoop { o with tlds := some (splitCommaList v) } rest2
  rw [if_neg h1, if_neg h2]

lemma parseLoop_tlds_select2 (o : Opts) (v : String) (rest2 : List String)
    (h1 : ¬v = "all") (h2 : ¬v = "premium") :
    parseLoop o ("--tlds" :: v :: rest2) =
      parseLoop { o with tlds := some (splitCommaList v) } rest2 := by
  show (if v = "all" then parseLoop { o with allTlds := true } rest2
      else if v = "premium" then parseLoop { o with premiumTlds := true } rest2
      else parseLoop { o with tlds := some (splitCommaList v) } rest2) =
    parseLoop { o with tlds := some (splitCommaList v) } rest2
  rw [if_neg h1, if_neg h2]

lemma parseLoop_other (o : Opts) (a : String) (rest : List String)
    (h1 : ¬(a = "-d" ∨ a = "--domain")) (h2 : ¬(a = "-r" ∨ a = "--regex"))
    (h3 : ¬(a = "-t" ∨ a = "--tlds")) (h4 : ¬(a = "-f" ∨ a = "--filter"))
    (h5 : ¬(a = "-s" ∨ a = "--sort")) (h6 : ¬(a = "-F" ∨ a = "--format"))
    (h7 : ¬(a = "-o" ∨ a = "--output")) (h8 : ¬(a = "-c" ∨ a = "--concurrency"))
    (h9 : ¬(a = "-T" ∨ a = "--timeout")) (h10 : ¬(a = "-R" ∨ a = "--resume"))
    (h11 : ¬a = "--no-resume") (h12 : ¬(a = "-C" ∨ a = "--cache"))
    (h13 : ¬a = "--no-cache") (h14 : ¬a = "--max-length")
    (h15 : ¬(a = "-h" ∨ a = "--help")) :
    parseLoop o (a :: rest) = parseLoop o rest := by
  rw [parseLoop.eq_def]
  simp only [if_neg h1, if_neg h2, if_neg h3, if_neg h4, if_neg h5, if_neg h6,
    if_neg h7, if_neg h8, if_neg h9, if_neg h10, if_neg h11, if_neg h12,
    if_neg h13, if_neg h14, if_neg h15]

lemma parseLoop_flagR (o : Opts) (rest : List String) :
    parseLoop o ("-R" :: rest) = parseLoop { o with resume := true } rest := by
  rw [parseLoop.eq_def]
  simp

lemma parseLoop_flagResume (o : Opts) (rest : List String) :
    parseLoop o ("--resume" :: rest) = parseLoop { o with resume := true } rest := by
  rw [parseLoop.eq_def]
  simp

lemma parseLoop_flagNoResume (o : Opts) (rest : List String) :
    parseLoop o ("--no-resume" :: rest) =
      parseLoop { o with resume := false } rest := by
  rw [parseLoop.eq_def]
  simp

lemma parseLoop_flagNoCache (o : Opts) (rest : List String) :
    parseLoop o ("--no-cache" :: rest) =
      parseLoop { o with useCache := false } rest := by
  rw [parseLoop.eq_def]
  simp

lemma parseLoop_flagMaxLen (o : Opts) (v : String) (rest2 : List String) :
    parseLoop o ("--max-length" :: v :: rest2) =
      parseLoop { o with maxLength := parseIntOr (jsParseInt v) 4 } rest2 := by
  rw [parseLoop.eq_def]
  simp

lemma parseLoop_flagMaxLenNil (o : Opts) :
    parseLoop o ["--max-length"] = parseLoop { o with maxLength := 4 } [] := by
  rw [parseLoop.eq_def]
  simp

lemma parseLoop_flagHelp (o : Opts) (rest : List String) :
    parseLoop o ("-h" :: rest) = Except.error 0 := by
  rw [parseLoop.eq_def]
  simp

lemma parseLoop_flagHelp2 (o : Opts) (rest : List String) :
    parseLoop o ("--help" :: rest) = Except.error 0 := by
  rw [parseLoop.eq_def]
  simp

lemma parseLoop_resume_irrelevant (o : Opts) (args : List String) :
    ∀ b, (parseLoop { o with resume := b } args).map eraseResume =
      (parseLoop o args).map eraseResume := by
  induction o, args using parseLoop.induct with
  | case1 opts => intro b; rfl
  | case2 opts a hpos v rest2 ih =>
    intro b; rcases hpos with rfl | rfl <;> exact ih b
  | case3 opts a hpos ih =>
    intro b; rcases hpos with rfl | rfl <;> exact ih b
  | case4 opts a h1 hpos v rest2 ih =>
    intro b; rcases hpos with rfl | rfl <;> exact ih b
  | case5 opts a h1 hpos ih =>
    intro b; rcases hpos with rfl | rfl <;> exact ih b
  | case6 opts a h1 h2 hpos rest2 ih =>
    intro b; rcases hpos with rfl | rfl <;> exact ih b
  | case7 opts a h1 h2 hpos rest2 hne ih =>
    intro b; rcases hpos with rfl | rfl <;> exact ih b
  | case8 opts a h1 h2 hpos v rest2 hva hvp ih =>
    intro b
    rcases hpos with rfl | rfl
    · rw [parseLoop_tlds_select { opts with resume := b } v rest2 hva hvp,
        parseLoop_tlds_select opts v rest2 hva hvp]
      exact ih b
    · rw [parseLoop_tlds_select2 { opts with resume := b } v rest2 hva hvp,
        parseLoop_tlds_select2 opts v rest2 hva hvp]
      exact ih b
  | case9 opts a h1 h2 hpos =>
    intro b; rcases hpos with rfl | rfl <;> rfl
  | case10 opts a h1 h2 h3 hpos v rest2 ih =>
    intro b; rcases hpos with rfl | rfl <;> exact ih b
  | case11 opts a h1 h2 h3 hpos =>
    intro b; rcases hpos with rfl | rfl <;> rfl
  | case12 opts a h1 h2 h3 h4 hpos v rest2 ih =>
    intro b; rcases hpos with rfl | rfl <;> exact ih b
  | case13 opts a h1 h2 h3 h4 hpos ih =>
    intro b; rcases hpos with rfl | rfl <;> exact ih b
  | case14 opts a h1 h2 h3 h4 h5 hpos v rest2 ih =>
    intro b; rcases hpos with rfl | rfl <;> exact ih b
  | case15 opts a h1 h2 h3 h4 h5 hpos =>
    intro b; rcases hpos with rfl | rfl <;> rfl
  | case16 opts a h1 h2 h3 h4 h5 h6 hpos v rest2 ih =>
    intro b; rcases hpos with rfl | rfl <;> exact ih b
  | case17 opts a h1 h2 h3 h4 h5 h6 hpos ih =>
    intro b; rcases hpos with rfl | rfl <;> exact ih b
  | case18 opts a h1 h2 h3 h4 h5 h6 h7 hpos v rest2 ih =>
    intro b; rcases hpos with rfl | rfl <;> exact ih b
  | case19 opts a h1 h2 h3 h4 h5 h6 h7 hpos ih =>
    intro b; rcases hpos with rfl | rfl <;> exact ih b
  | case20 opts a h1 h2 h3 h4 h5 h6 h7 h8 hpos v rest2 ih =>
    intro b; rcases hpos with rfl | rfl <;> exact ih b
  | case21 opts a h1 h2 h3 h4 h5 h6 h7 h8 hpos ih =>
    intro b; rcases hpos with rfl | rfl <;> exact ih b
  | case22 opts a rest h1 h2 h3 h4 h5 h6 h7 h8 h9 hpos ih =>
    intro b
    rcases hpos with rfl | rfl
    · rw [parseLoop_flagR, parseLoop_flagR]
    · rw [parseLoop_flagResume, parseLoop_flagResume]
  | case23 opts rest h1 h2 h3 h4 h5 h6 h7 h8 h9 h10 ih =>
    intro b
    rw [parseLoop_flagNoResume, parseLoop_flagNoResume]
  | case24 opts a h1 h2 h3 h4 h5 h6 h7 h8 h9 h10 h11 hpos v rest2 ih =>
    intro b; rcases hpos with rfl | rfl <;> exact ih b
  | case25 opts a h1 h2 h3 h4 h5 h6 h7 h8 h9 h10 h11 hpos ih =>
    intro b; rcases hpos with rfl | rfl <;> exact ih b
  | case26 opts rest h1 h2 h3 h4 h5 h6 h7 h8 h9 h10 h11 h12 ih =>
    intro b
    rw [parseLoop_flagNoCache, parseLoop_flagNoCache]
    exact ih b
  | case27 opts v rest2 h1 h2 h3 h4 h5 h6 h7 h8 h9 h10 h11 h12 h13 ih =>
    intro b
    rw [parseLoop_flagMaxLen, parseLoop_flagMaxLen]
    exact ih b
  | case28 opts h1 h2 h3 h4 h5 h6 h7 h8 h9 h10 h11 h12 h13 ih =>
    intro b
    rw [parseLoop_flagMaxLenNil, parseLoop_flagMaxLenNil]
    exact ih b
  | case29 opts a rest h1 h2 h3 h4 h5 h6 h7 h8 h9 h10 h11 h12 h13 h14 hpos =>
    intro b
    rcases hpos with rfl | rfl
    · rw [parseLoop_flagHelp, parseLoop_flagHelp]
    · rw [parseLoop_flagHelp2, parseLoop_flagHelp2]
  | case30 opts a rest h1 h2 h3 h4 h5 h6 h7 h8 h9 h10 h11 h12 h13 h14 h15 ih =>
    intro b
    rw [parseLoop_other { opts with resume := b } a rest h1 h2 h3 h4 h5 h6 h7
        h8 h9 h10 h11 h12 h13 h14 h15,
      parseLoop_other opts a rest h1 h2 h3 h4 h5 h6 h7 h8 h9 h10 h11 h12 h13
        h14 h15]
    exact ih b

/-- **C10.** The `-R`/`--resume` and `--no-resume` flags have no effect on
behaviour.  Encountering any of them in flag position changes nothing about
the parse result except the `resume` field, and the startup stage that
builds everything the rest of the program consumes (scheduler configuration,
TLD set, mode, cache path, output settings) never reads `resume`: its result
is identical for any value of that field.  Cache consultation is governed
solely by `useCache` (true by default, cleared only by `--no-cache`), which
is part of the scheduler configuration. -/
theorem C10_resume_flags_inert (o : Opts) (rest : List String)
    (rv : String → Bool) (b : Bool) :
    (parseLoop o ("-R" :: rest)).map eraseResume =
      (parseLoop o rest).map eraseResume ∧
    (parseLoop o ("--resume" :: rest)).map eraseResume =
      (parseLoop o rest).map eraseResume ∧
    (parseLoop o ("--no-resume" :: rest)).map eraseResume =
      (parseLoop o rest).map eraseResume ∧
    buildSetup rv { o with resume := b } = buildSetup rv o := by
  refine ⟨?_, ?_, ?_, rfl⟩
  · rw [parseLoop_flagR]
    exact parseLoop_resume_irrelevant o rest true
  · rw [parseLoop_flagResume]
    exact parseLoop_resume_irrelevant o rest true
  · rw [parseLoop_flagNoResume]
    exact parseLoop_resume_irrelevant o rest false
